import Mathlib

/-!
Shallow embedding of the Demography abstraction (deepface/models/Demography.py)
and the Buffalo_L recognition wrapper (deepface/models/facial_recognition/Buffalo_L.py),
together with proofs about their shape-normalization and dispatch behaviour.

Numpy arrays are modelled as a shape (list of dimension sizes) together with the
flat row-major (C-order) data buffer.  The shape-manipulating operations used by
the source (`squeeze`, `squeeze(0)`, `np.expand_dims(_, 0)`, `np.array(list)`,
basic indexing `a[0]` / `a[0, :]`, `a[:, :, ::-1]`) all act on the shape and, for
the indexing/reversal ones, on the flat buffer; none of them reorders data except
the channel reversal.  Element dtype is modelled as `Int` (the claims under study
concern shapes and data routing, not floating-point arithmetic).
-/

namespace DeepFaceSpec

/-- A numpy ndarray: list of dimension sizes plus flat C-order data buffer. -/
structure NDArray where
  shape : List Nat
  data : List Int
deriving Repr, DecidableEq

/-- The number of dimensions of the array (`a.ndim`). -/
def NDArray.ndim (a : NDArray) : Nat := a.shape.length

/-- numpy `a.squeeze()`: remove every axis of length 1.  The flat C-order buffer
is unchanged by removing length-1 axes. -/
def NDArray.squeeze (a : NDArray) : NDArray :=
  ⟨a.shape.filter (fun d => d != 1), a.data⟩

/-- numpy `a.squeeze(0)`: remove the leading axis.  In the source this is only
invoked when the leading axis has length 1 (numpy would raise otherwise). -/
def NDArray.squeezeAxis0 (a : NDArray) : NDArray :=
  ⟨a.shape.tail, a.data⟩

/-- numpy `np.expand_dims(a, axis=0)`: insert a leading axis of length 1. -/
def NDArray.expandDims0 (a : NDArray) : NDArray :=
  ⟨1 :: a.shape, a.data⟩

/-- Basic indexing `a[k]` along the leading axis (for `a.ndim ≥ 1`): the k-th
sub-array, of shape `a.shape.tail`, occupying the k-th consecutive chunk of the
flat buffer. -/
def NDArray.batchElem (a : NDArray) (k : Nat) : NDArray :=
  ⟨a.shape.tail, (a.data.drop (k * a.shape.tail.prod)).take a.shape.tail.prod⟩

/-- Basic indexing `a[0]`; for an array of `ndim ≥ 2` this also models
`a[0, :]` (trailing axes are kept either way). -/
def NDArray.getRow0 (a : NDArray) : NDArray := a.batchElem 0

/-- numpy `np.array(l)` on a (homogeneous) python list of equal-shape arrays:
stack the elements, in order, along a new leading axis.  `np.array([])` yields
an empty 1-D array.  (Stacking arrays of mismatched shapes is a numpy-level
error, outside the behaviour the source relies on.) -/
def npArrayOfList (l : List NDArray) : NDArray :=
  match l with
  | [] => ⟨[0], []⟩
  | a :: _ => ⟨l.length :: a.shape, (l.map NDArray.data).flatten⟩

/-- The two input calling conventions accepted by
`_preprocess_batch_or_single_input`: a bare ndarray, or a python list of
ndarrays (`isinstance(img, list)`). -/
inductive ImgInput where
  | single (a : NDArray)
  | list (l : List NDArray)

/-- Embedding of `Demography._preprocess_batch_or_single_input`:
lists are converted via `np.array`; then all length-1 axes are squeezed; then a
3-D result gets a leading batch axis of length 1 re-inserted. -/
def preprocessBatchOrSingleInput (img : ImgInput) : NDArray :=
  let image_batch : NDArray :=
    match img with
    | .single a => a
    | .list l => npArrayOfList l
  let image_batch := image_batch.squeeze
  if image_batch.shape.length = 3 then image_batch.expandDims0 else image_batch

/-- The injected inference capability of a concrete demography model:
`model(x, training=b).numpy()` (the legacy single-sample path, second argument
the `training` flag) and `model.predict_on_batch(x)` (the native batch path). -/
structure DemographyModel where
  call : NDArray → Bool → NDArray
  predict_on_batch : NDArray → NDArray

/-- The errors `_predict_internal` can raise: the `NotImplementedError` guard
for an unconfigured (abstract-base) model, and the `assert` on the input rank. -/
inductive PredictError where
  | notImplementedError (msg : String)
  | assertionError (msg : String)
deriving Repr, DecidableEq

/-- Embedding of `Demography._predict_internal`:
guard on `model_name` being non-empty, assert the input is 4-D, then dispatch on
the batch size: a batch of one goes through the legacy path (`squeeze(0)`, call
with `training=False`, take row `[0, :]`), a larger batch goes through
`predict_on_batch` unmodified. -/
def predictInternal (model_name : String) (m : DemographyModel)
    (img_batch : NDArray) : Except PredictError NDArray :=
  if model_name = "" then
    .error (.notImplementedError "virtual method must not be called directly")
  else if img_batch.ndim ≠ 4 then
    .error (.assertionError "expected 4-dimensional tensor input")
  else if img_batch.shape.headD 0 = 1 then
    .ok ((m.call img_batch.squeezeAxis0 false).getRow0)
  else
    .ok (m.predict_on_batch img_batch)

end DeepFaceSpec

namespace DeepFaceSpec

/- Helper lemmas about the embedded array operations. -/

@[ext] theorem NDArray.ext (a b : NDArray)
    (hs : a.shape = b.shape) (hd : a.data = b.data) : a = b := by
  cases a; cases b; simp_all

theorem NDArray.squeeze_of_no_ones (a : NDArray) (h : ∀ d ∈ a.shape, d ≠ 1) :
    a.squeeze = a :=
  NDArray.ext _ _ (List.filter_eq_self.mpr (fun d hd => by simp [h d hd])) rfl

theorem NDArray.squeeze_squeeze (a : NDArray) : a.squeeze.squeeze = a.squeeze :=
  NDArray.ext _ _ (by simp [NDArray.squeeze, List.filter_filter]) rfl

/-- Extracting the k-th chunk of length `c` from the concatenation of lists
that all have length `c` recovers the k-th list. -/
theorem flatten_drop_take (c : Nat) (ls : List (List Int)) :
    ∀ (k : Nat) (hk : k < ls.length), (∀ x ∈ ls, x.length = c) →
      (ls.flatten.drop (k * c)).take c = ls.get ⟨k, hk⟩ := by
  induction ls with
  | nil => intro k hk; simp at hk
  | cons x xs ih =>
    intro k hk hall
    have hx : x.length = c := hall x (by simp)
    cases k with
    | zero =>
      simp only [Nat.zero_mul, List.drop_zero, List.flatten_cons, List.get]
      exact List.take_left' hx
    | succ k =>
      have hdrop : (x ++ xs.flatten).drop ((k + 1) * c) = xs.flatten.drop (k * c) := by
        rw [show (k + 1) * c = x.length + k * c by rw [hx]; ring,
          ← List.drop_drop, List.drop_left]
      simp only [List.flatten_cons, hdrop, List.get_cons_succ]
      exact ih k (by simpa using hk) (fun y hy => hall y (by simp [hy]))

/- Theorems for the frozen claims about `_predict_internal` and
`_preprocess_batch_or_single_input`. -/

/-- C1: on a 4-D batch with leading dimension 1 and a non-empty model
identifier, `_predict_internal` removes the batch dimension (`squeeze(0)`),
calls the legacy single-sample path with `training = false`, and returns row
`[0, :]` of its output; when that legacy output is 2-D, the returned prediction
is 1-D. -/
theorem predictInternal_batch_one (name : String) (m : DemographyModel)
    (img : NDArray) (hname : name ≠ "") (h4 : img.ndim = 4)
    (h1 : img.shape.headD 0 = 1) :
    predictInternal name m img = .ok ((m.call img.squeezeAxis0 false).getRow0)
    ∧ ((m.call img.squeezeAxis0 false).ndim = 2 →
        ((m.call img.squeezeAxis0 false).getRow0).ndim = 1) := by
  constructor
  · unfold predictInternal
    rw [if_neg hname, if_neg (fun hc => hc h4), if_pos h1]
  · intro h2
    simp only [NDArray.ndim, NDArray.getRow0, NDArray.batchElem,
      List.length_tail] at h2 ⊢
    omega

/-- Witness for C1 at a concrete configured model and a concrete (1,2,2,3)
batch. -/
theorem predictInternal_batch_one_witness :
    predictInternal "Age" ⟨fun _ _ => ⟨[1, 4], [5, 6, 7, 8]⟩, fun a => a⟩
        ⟨[1, 2, 2, 3], List.replicate 12 0⟩ = .ok ⟨[4], [5, 6, 7, 8]⟩ := by
  have h := (predictInternal_batch_one "Age"
    ⟨fun _ _ => ⟨[1, 4], [5, 6, 7, 8]⟩, fun a => a⟩
    ⟨[1, 2, 2, 3], List.replicate 12 0⟩ (by decide) (by decide) (by decide)).1
  simpa [NDArray.getRow0, NDArray.batchElem] using h

/-- C2: on a 4-D batch with leading dimension N > 1 and a non-empty model
identifier, `_predict_internal` returns exactly `predict_on_batch` applied to
the full batch, unmodified. -/
theorem predictInternal_batch_many (name : String) (m : DemographyModel)
    (img : NDArray) (hname : name ≠ "") (h4 : img.ndim = 4)
    (hN : 1 < img.shape.headD 0) :
    predictInternal name m img = .ok (m.predict_on_batch img) := by
  have h1 : ¬ img.shape.headD 0 = 1 := by omega
  unfold predictInternal
  rw [if_neg hname, if_neg (fun hc => hc h4), if_neg h1]

/-- Witness for C2 at a concrete configured model and a concrete (2,2,2,3)
batch. -/
theorem predictInternal_batch_many_witness :
    predictInternal "Age" ⟨fun a _ => a, fun _ => ⟨[2, 4], List.replicate 8 9⟩⟩
        ⟨[2, 2, 2, 3], List.replicate 24 0⟩ = .ok ⟨[2, 4], List.replicate 8 9⟩ := by
  have h := predictInternal_batch_many "Age"
    ⟨fun a _ => a, fun _ => ⟨[2, 4], List.replicate 8 9⟩⟩
    ⟨[2, 2, 2, 3], List.replicate 24 0⟩ (by decide) (by decide) (by decide)
  simpa using h

/-- C8: with a non-empty model identifier, `_predict_internal` raises the
assertion error "expected 4-dimensional tensor input" exactly when the input is
not 4-dimensional; in particular the assertion branch is unreachable on 4-D
inputs, and on non-4-D inputs neither inference path is reached (the error is
the result for every inference capability `m`). -/
theorem predictInternal_assertion_iff (name : String) (m : DemographyModel)
    (img : NDArray) (hname : name ≠ "") :
    predictInternal name m img =
        .error (.assertionError "expected 4-dimensional tensor input")
      ↔ img.ndim ≠ 4 := by
  unfold predictInternal
  rw [if_neg hname]
  by_cases h4 : img.ndim = 4
  · rw [if_neg (fun hc => hc h4)]
    simp only [h4, ne_eq, not_true_eq_false, iff_false]
    split <;> simp
  · rw [if_pos h4]
    simp [h4]

/-- Witness for C8 at a concrete configured model and a 3-D input. -/
theorem predictInternal_assertion_iff_witness :
    predictInternal "Emotion" ⟨fun a _ => a, fun a => a⟩
        ⟨[2, 2, 3], List.replicate 12 0⟩ =
      .error (.assertionError "expected 4-dimensional tensor input") :=
  (predictInternal_assertion_iff "Emotion" ⟨fun a _ => a, fun a => a⟩
    ⟨[2, 2, 3], List.replicate 12 0⟩ (by decide)).mpr (by decide)

/-- C7: with an empty model identifier, `_predict_internal` raises the
`NotImplementedError` configuration error for every input array of any rank,
and for every inference capability `m` — so the error fires before the shape
check and before either inference path can be consulted. -/
theorem predictInternal_empty_name (m : DemographyModel) (img : NDArray) :
    predictInternal "" m img =
      .error (.notImplementedError "virtual method must not be called directly") := by
  simp [predictInternal]

/-- C3 counterexample: a single 3-D image of shape (2,2,1) does NOT normalize
to shape (1,2,2,1): the unconditional squeeze first drops the length-1 channel
axis, leaving a 2-D array that is returned without a batch axis. -/
theorem preprocess_single_3d_cex :
    (preprocessBatchOrSingleInput (.single ⟨[2, 2, 1], [0, 0, 0, 0]⟩)).shape
      ≠ [1, 2, 2, 1] := by decide

/-- C3 (amended): for a single 3-D image of shape (H,W,C) with H, W and C all
different from 1, the normalizer returns an array of shape (1,H,W,C). -/
theorem preprocess_single_3d (H W C : Nat) (img : NDArray)
    (hs : img.shape = [H, W, C]) (hH : H ≠ 1) (hW : W ≠ 1) (hC : C ≠ 1) :
    (preprocessBatchOrSingleInput (.single img)).shape = [1, H, W, C] := by
  have hsq : img.squeeze = img := img.squeeze_of_no_ones (by
    rw [hs]
    intro d hd
    simp at hd
    rcases hd with rfl | rfl | rfl <;> assumption)
  simp [preprocessBatchOrSingleInput, hsq, hs, NDArray.expandDims0]

/-- Witness for C3 (amended) at a concrete (2,2,3) image. -/
theorem preprocess_single_3d_witness :
    (preprocessBatchOrSingleInput (.single ⟨[2, 2, 3], List.replicate 12 0⟩)).shape
      = [1, 2, 2, 3] :=
  preprocess_single_3d 2 2 3 ⟨[2, 2, 3], List.replicate 12 0⟩ rfl
    (by decide) (by decide) (by decide)

/-- C4 counterexample: a single grayscale image of shape (2,2,1) does NOT
normalize to shape (1,2,2): after the squeeze the array is 2-D, and the
re-expansion step only applies to 3-D arrays, so no batch axis is added. -/
theorem preprocess_grayscale_cex :
    (preprocessBatchOrSingleInput (.single ⟨[2, 2, 1], [0, 0, 0, 0]⟩)).shape
      ≠ [1, 2, 2] := by decide

/-- C4 (amended): a single grayscale image of shape (H,W,1) with H>1 and W>1
normalizes to the 2-D shape (H,W) — not (1,H,W,1), and not (1,H,W) either: the
channel axis is squeezed away and the resulting 2-D array is returned without
re-inserting a batch axis. -/
theorem preprocess_grayscale (H W : Nat) (img : NDArray)
    (hs : img.shape = [H, W, 1]) (hH : 1 < H) (hW : 1 < W) :
    (preprocessBatchOrSingleInput (.single img)).shape = [H, W] := by
  have hH1 : (H != 1) = true := by simp only [bne_iff_ne, ne_eq]; omega
  have hW1 : (W != 1) = true := by simp only [bne_iff_ne, ne_eq]; omega
  simp [preprocessBatchOrSingleInput, NDArray.squeeze, hs, List.filter_cons,
    hH1, hW1]

/-- Witness for C4 (amended) at a concrete (2,2,1) image. -/
theorem preprocess_grayscale_witness :
    (preprocessBatchOrSingleInput (.single ⟨[2, 2, 1], [0, 0, 0, 0]⟩)).shape
      = [2, 2] :=
  preprocess_grayscale 2 2 ⟨[2, 2, 1], [0, 0, 0, 0]⟩ rfl (by decide) (by decide)

/-- Normalizing any 4-D array of shape (N,H,W,C) with H, W, C all ≠ 1 yields
an array of the same shape and data: for N = 1 the squeeze drops the leading
axis and the 3-D check re-inserts it; for N ≠ 1 the squeeze is a no-op and the
array is 4-D already. -/
theorem preprocess_single_4d (N H W C : Nat) (b : NDArray)
    (hs : b.shape = [N, H, W, C]) (hH : H ≠ 1) (hW : W ≠ 1) (hC : C ≠ 1) :
    preprocessBatchOrSingleInput (.single b) = ⟨[N, H, W, C], b.data⟩ := by
  have h3 : List.filter (fun d => d != 1) [H, W, C] = [H, W, C] :=
    List.filter_eq_self.mpr (by
      intro d hd
      simp at hd
      rcases hd with rfl | rfl | rfl <;> simp [hH, hW, hC])
  by_cases hN : N = 1
  · subst hN
    have hsq : b.squeeze = ⟨[H, W, C], b.data⟩ := by
      unfold NDArray.squeeze
      rw [hs]
      simp [List.filter_cons, h3]
    simp [preprocessBatchOrSingleInput, hsq, NDArray.expandDims0]
  · have hsq : b.squeeze = ⟨[N, H, W, C], b.data⟩ := by
      unfold NDArray.squeeze
      rw [hs]
      simp [List.filter_cons, h3, hN]
    simp [preprocessBatchOrSingleInput, hsq]

/-- Unfolding equation for the normalizer on a bare ndarray input. -/
theorem preprocess_single_eq (a : NDArray) :
    preprocessBatchOrSingleInput (.single a) =
      if a.squeeze.shape.length = 3 then a.squeeze.expandDims0 else a.squeeze := rfl

/-- Normalizing is idempotent: a second pass through
`_preprocess_batch_or_single_input` leaves the first pass's result unchanged,
whatever the original input array was. -/
theorem preprocess_single_idem (a : NDArray) :
    preprocessBatchOrSingleInput (.single (preprocessBatchOrSingleInput (.single a)))
      = preprocessBatchOrSingleInput (.single a) := by
  rw [preprocess_single_eq a]
  by_cases h3 : a.squeeze.shape.length = 3
  · rw [if_pos h3]
    have h1 : a.squeeze.expandDims0.squeeze = a.squeeze := by
      unfold NDArray.expandDims0 NDArray.squeeze
      simp [List.filter_cons, List.filter_filter, Bool.and_self]
    rw [preprocess_single_eq, h1, if_pos h3]
  · rw [if_neg h3, preprocess_single_eq, a.squeeze_squeeze, if_neg h3]

/-- C5 counterexample: a list of two images of identical shape (2,2,1) does
NOT normalize to shape (2,2,2,1): the stacked batch is squeezed to (2,2,2) and
then re-expanded to (1,2,2,2). -/
theorem preprocess_list_cex :
    (preprocessBatchOrSingleInput (.list
        [⟨[2, 2, 1], [0, 0, 0, 0]⟩, ⟨[2, 2, 1], [1, 1, 1, 1]⟩])).shape
      ≠ [2, 2, 2, 1] := by decide

/-- C5 (amended): for a non-empty list of K images of identical shape (H,W,C)
with H, W and C all different from 1, the normalizer stacks them in order into
an array of shape (K,H,W,C) whose k-th batch element is the k-th list
element. -/
theorem preprocess_list (H W C : Nat) (l : List NDArray) (hne : l ≠ [])
    (hall : ∀ a ∈ l, a.shape = [H, W, C] ∧ a.data.length = H * W * C)
    (hH : H ≠ 1) (hW : W ≠ 1) (hC : C ≠ 1) :
    (preprocessBatchOrSingleInput (.list l)).shape = [l.length, H, W, C]
    ∧ ∀ k (hk : k < l.length),
        (preprocessBatchOrSingleInput (.list l)).batchElem k = l.get ⟨k, hk⟩ := by
  obtain ⟨a, rest, rfl⟩ := List.exists_cons_of_ne_nil hne
  have hnp : npArrayOfList (a :: rest) =
      ⟨(a :: rest).length :: [H, W, C], ((a :: rest).map NDArray.data).flatten⟩ := by
    simp [npArrayOfList, (hall a (by simp)).1]
  have hpre : preprocessBatchOrSingleInput (.list (a :: rest)) =
      ⟨[(a :: rest).length, H, W, C], ((a :: rest).map NDArray.data).flatten⟩ := by
    have hlist : preprocessBatchOrSingleInput (.list (a :: rest)) =
        preprocessBatchOrSingleInput (.single (npArrayOfList (a :: rest))) := rfl
    rw [hlist, hnp]
    exact preprocess_single_4d _ _ _ _ _ rfl hH hW hC
  have hprod : ([H, W, C] : List Nat).prod = H * W * C := by
    simp [List.prod_cons, mul_assoc]
  constructor
  · rw [hpre]
  · intro k hk
    rw [hpre]
    unfold NDArray.batchElem
    have hmem := List.get_mem (a :: rest) k hk
    have hsk : ((a :: rest).get ⟨k, hk⟩).shape = [H, W, C] := (hall _ hmem).1
    have hk' : k < ((a :: rest).map NDArray.data).length := by simpa using hk
    have hdata := flatten_drop_take (H * W * C) ((a :: rest).map NDArray.data) k hk'
      (by
        intro x hx
        obtain ⟨b, hb, rfl⟩ := List.mem_map.mp hx
        exact (hall b hb).2)
    rw [List.get_map] at hdata
    apply NDArray.ext
    · simpa using hsk.symm
    · simpa [hprod] using hdata

/-- Witness for C5 (amended) at a concrete two-element list of (2,2,3)
images: the second batch element of the normalized batch is the second list
element. -/
theorem preprocess_list_witness :
    (preprocessBatchOrSingleInput (.list
        [⟨[2, 2, 3], List.replicate 12 5⟩, ⟨[2, 2, 3], List.replicate 12 7⟩])).batchElem 1
      = ⟨[2, 2, 3], List.replicate 12 7⟩ := by
  have h := (preprocess_list 2 2 3
      [⟨[2, 2, 3], List.replicate 12 5⟩, ⟨[2, 2, 3], List.replicate 12 7⟩]
      (by decide) (by decide) (by decide) (by decide) (by decide)).2 1 (by decide)
  simpa using h

/-- C6 counterexample: an already-batched array of shape (2,2,2,1) (so N > 1)
is NOT returned unchanged: the squeeze drops its trailing length-1 axis and
the result is re-expanded to shape (1,2,2,2). -/
theorem preprocess_batch4d_cex :
    preprocessBatchOrSingleInput (.single ⟨[2, 2, 2, 1], List.replicate 8 0⟩)
      ≠ ⟨[2, 2, 2, 1], List.replicate 8 0⟩ := by decide

/-- C6 (amended): for an already-batched array of shape (N,H,W,C) with N > 1,
the normalizer returns it unchanged provided H, W and C are all different
from 1; and re-normalizing is always a no-op on the normalizer's output
(idempotence holds with no restriction on H, W, C). -/
theorem preprocess_batch4d (N H W C : Nat) (img : NDArray)
    (hs : img.shape = [N, H, W, C]) (_hN : 1 < N) :
    ((H ≠ 1 ∧ W ≠ 1 ∧ C ≠ 1) → preprocessBatchOrSingleInput (.single img) = img)
    ∧ preprocessBatchOrSingleInput
        (.single (preprocessBatchOrSingleInput (.single img)))
      = preprocessBatchOrSingleInput (.single img) := by
  constructor
  · rintro ⟨hH, hW, hC⟩
    rw [preprocess_single_4d N H W C img hs hH hW hC]
    exact NDArray.ext _ _ hs.symm rfl
  · exact preprocess_single_idem img

/-- Witness for C6 (amended) at a concrete (2,2,2,3) batch. -/
theorem preprocess_batch4d_witness :
    preprocessBatchOrSingleInput (.single ⟨[2, 2, 2, 3], List.replicate 24 0⟩)
      = ⟨[2, 2, 2, 3], List.replicate 24 0⟩ :=
  (preprocess_batch4d 2 2 2 3 ⟨[2, 2, 2, 3], List.replicate 24 0⟩ rfl
    (by decide)).1 (by decide)

/-- C10: a bare 2-D grayscale image of shape (H,W) with H>1 and W>1 passes
through the normalizer unchanged — the result is still 2-D, not 4-D — and
feeding that result to `_predict_internal` on a configured model always raises
the "expected 4-dimensional tensor input" assertion error. -/
theorem preprocess_2d_then_predict (H W : Nat) (d : List Int) (name : String)
    (m : DemographyModel) (hH : 1 < H) (hW : 1 < W) (hname : name ≠ "") :
    preprocessBatchOrSingleInput (.single ⟨[H, W], d⟩) = ⟨[H, W], d⟩
    ∧ predictInternal name m (preprocessBatchOrSingleInput (.single ⟨[H, W], d⟩))
        = .error (.assertionError "expected 4-dimensional tensor input") := by
  have hsq : (⟨[H, W], d⟩ : NDArray).squeeze = ⟨[H, W], d⟩ :=
    NDArray.squeeze_of_no_ones _ (by
      intro x hx
      simp at hx
      rcases hx with rfl | rfl <;> omega)
  have hpre : preprocessBatchOrSingleInput (.single ⟨[H, W], d⟩) = ⟨[H, W], d⟩ := by
    simp [preprocessBatchOrSingleInput, hsq]
  refine ⟨hpre, ?_⟩
  rw [hpre]
  unfold predictInternal
  rw [if_neg hname, if_pos (by simp [NDArray.ndim])]

/-- Witness for C10 at a concrete (2,2) grayscale image and a configured
model. -/
theorem preprocess_2d_then_predict_witness :
    predictInternal "Gender" ⟨fun a _ => a, fun a => a⟩
        (preprocessBatchOrSingleInput (.single ⟨[2, 2], [1, 2, 3, 4]⟩))
      = .error (.assertionError "expected 4-dimensional tensor input") :=
  (preprocess_2d_then_predict 2 2 [1, 2, 3, 4] "Gender" ⟨fun a _ => a, fun a => a⟩
    (by decide) (by decide) (by decide)).2

/- Embedding of `Buffalo_L.preprocess` and `Buffalo_L.forward`
(deepface/models/facial_recognition/Buffalo_L.py). -/

/-- The error raised by `Buffalo_L.preprocess` and `Buffalo_L.forward`: a
python `ValueError` carrying its message. -/
inductive BuffaloError where
  | valueError (msg : String)
deriving Repr, DecidableEq

/-- Reverse each of `n` consecutive chunks of length `c` of a flat buffer. -/
def reverseChunks (c : Nat) : Nat → List Int → List Int
  | 0, l => l
  | n + 1, l => (l.take c).reverse ++ reverseChunks c n (l.drop c)

/-- numpy `img[:, :, ::-1]` on a 3-D array: reverse the last (channel) axis.
The shape is unchanged; in the flat C-order buffer each innermost run of
`c` scalars (`c` the last dimension) is reversed. -/
def NDArray.reverseLastAxis (a : NDArray) : NDArray :=
  let c := a.shape.getLastD 1
  ⟨a.shape, reverseChunks c (if c = 0 then 0 else a.data.length / c) a.data⟩

/-- The result of `self.model.get_feat(img)` as case-analysed by
`Buffalo_L.forward`: either an ndarray or a (flat) python list of scalars. -/
inductive FeatResult where
  | arr (e : NDArray)
  | list (l : List Int)

namespace Buffalo_L

/-- Embedding of `Buffalo_L.preprocess`: a 4-D input must be a singleton batch (its lone
image is extracted via `img[0]`), otherwise a `ValueError` rejects the batch; a
non-4-D input must have shape exactly (112, 112, 3); the surviving image is
converted RGB→BGR by reversing the channel axis. -/
def preprocess (img : NDArray) : Except BuffaloError NDArray := do
  let img ←
    if img.shape.length = 4 then
      if img.shape.headD 0 = 1 then
        pure img.getRow0
      else
        throw (.valueError "Buffalo_L model expects a single image, not a batch.")
    else if img.shape.length ≠ 3 ∨ img.shape ≠ [112, 112, 3] then
      throw (.valueError "Input image must have shape (112, 112, 3).")
    else
      pure img
  pure img.reverseLastAxis

/-- Embedding of `Buffalo_L.forward` (with the injected `get_feat` inference capability):
preprocess the image, run `get_feat`, then flatten the embedding to a flat
list; an ndarray embedding of rank ≤ 1 hits the final `else` branch, which
raises `ValueError` ("Unexpected embedding type" — the python message also
interpolates the runtime type). -/
def forward (get_feat : NDArray → FeatResult) (img : NDArray) :
    Except BuffaloError (List Int) := do
  let img ← preprocess img
  match get_feat img with
  | .arr e =>
      if e.shape.length > 1 then
        pure e.data
      else
        throw (.valueError "Unexpected embedding type")
  | .list l => pure l

end Buffalo_L

/-- C9: `Buffalo_L.preprocess` rejects every 4-D input whose leading dimension
exceeds 1 with a `ValueError`, before any channel conversion; consequently
`Buffalo_L.forward` — whatever the underlying `get_feat` capability does —
never processes a multi-image batch and propagates the same error. -/
theorem buffalo_rejects_batch (img : NDArray) (get_feat : NDArray → FeatResult)
    (h4 : img.ndim = 4) (hN : 1 < img.shape.headD 0) :
    Buffalo_L.preprocess img =
        .error (.valueError "Buffalo_L model expects a single image, not a batch.")
    ∧ Buffalo_L.forward get_feat img =
        .error (.valueError "Buffalo_L model expects a single image, not a batch.") := by
  have h4' : img.shape.length = 4 := h4
  have h1 : ¬ img.shape.headD 0 = 1 := by omega
  have h1' : ¬ img.shape.head?.getD 0 = 1 := by
    rwa [← List.headD_eq_head?_getD]
  have hp : Buffalo_L.preprocess img =
      .error (.valueError "Buffalo_L model expects a single image, not a batch.") := by
    simp [Buffalo_L.preprocess, h4', h1']
    rfl
  refine ⟨hp, ?_⟩
  unfold Buffalo_L.forward
  rw [hp]
  rfl

/-- Witness for C9 at a concrete (2,112,112,3) two-image batch. -/
theorem buffalo_rejects_batch_witness :
    Buffalo_L.forward (fun _ => .list [])
        ⟨[2, 112, 112, 3], List.replicate 75264 0⟩ =
      .error (.valueError "Buffalo_L model expects a single image, not a batch.") :=
  (buffalo_rejects_batch ⟨[2, 112, 112, 3], List.replicate 75264 0⟩
    (fun _ => .list []) (by decide) (by decide)).2

end DeepFaceSpec
